import Mathlib

/-!
Verification of the CargoForge-C web backend (src/web/backend) against its
natural-language specification.  The Python source is shallowly embedded:
dict-shaped JSON values become structures with `Option` fields (a missing
key is `none`, `dict.get` with a default becomes `Option.getD`), database
tables become lists of records, exceptions become an explicit `PyExc`
value threaded through the control flow, and the per-dispatch scratch
directory becomes a three-flag filesystem snapshot.  Numbers carried by
requests are modelled as `Rat` (the handlers only compare them to zero and
copy them around, so exact rationals are a faithful carrier).
-/

/-- Ship object of a request body: `data['ship']` in `app_prod.py` /
`app.py`.  Each field is `none` when the JSON key is absent. -/
structure ShipData where
  length : Option Rat
  width : Option Rat
  max_weight : Option Rat
  lightship_weight : Option Rat
  lightship_kg : Option Rat
deriving DecidableEq, Repr

/-- One cargo item of a request body.  `ctype` models the `type` key. -/
structure CargoItem where
  id : Option String
  weight : Option Rat
  dimensions : Option (List Rat)
  ctype : Option String
deriving DecidableEq, Repr

/-- The JSON body of an optimize / validate request: the `ship` and
`cargo` keys, each possibly absent. -/
structure RequestData where
  ship : Option ShipData
  cargo : Option (List CargoItem)
deriving DecidableEq, Repr

/-- Row of the `users` table (`User` model, app_prod.py).  `email` is
non-nullable; `subscription_status` is a nullable string column, so it is
an `Option` (the subscription-updated webhook can write `None` into it). -/
structure DbUser where
  uid : Nat
  email : String
  subscription_tier : String
  subscription_status : Option String
  stripe_customer_id : Option String
  stripe_subscription_id : Option String
  api_key : Option String
deriving DecidableEq, Repr

/-- Row of the `optimization_logs` table (`OptimizationLog` model):
the usage ledger.  `created_at` is a UTC timestamp modelled as a rational
number of seconds; `success` mirrors the boolean column. -/
structure LogEntry where
  log_user_id : Option Nat
  execution_time_ms : Rat
  cargo_count : Nat
  placed_count : Int
  success : Bool
  created_at : Rat
deriving DecidableEq, Repr

/-- Property `User.daily_limit` (app_prod.py lines 81-84):
`limits = {'free': 10, 'pro': 1000, 'enterprise': 10000}` followed by
`limits.get(self.subscription_tier, 10)`. -/
def tierLimits : List (String × Nat) :=
  [("free", 10), ("pro", 1000), ("enterprise", 10000)]

/-- Lookup `limits.get(tier, 10)`: look the tier up in the static mapping,
defaulting to the free limit. -/
def daily_limit (tier : String) : Nat :=
  ((tierLimits.find? (fun p => p.1 == tier)).map Prod.snd).getD 10

/-- The ledger count used by `api_key_required` (app_prod.py 135-139):
`OptimizationLog.query.filter(user_id == user.id, created_at >= today_start).count()`. -/
def todayCount (logs : List LogEntry) (uid : Nat) (todayStart : Rat) : Nat :=
  (logs.filter (fun l => l.log_user_id == some uid && decide (todayStart ≤ l.created_at))).length

/-- Python exceptions that the dispatch pipeline can raise and that its
handlers distinguish. -/
inductive PyExc where
  | keyError
  | indexError
  | timeoutExpired
  | jsonDecodeError
deriving DecidableEq, Repr

/-- Rendering `str(e)` for the exceptions above, as used by the catch-all
`except Exception as e: jsonify({'error': str(e)}), 500` branches.  The
concrete wording of the interpreter's message is not observable by any
claim; the tag keeps the four exception texts distinct. -/
def excText : PyExc → String
  | .keyError => "KeyError"
  | .indexError => "list index out of range"
  | .timeoutExpired => "Command timed out after 30 seconds"
  | .jsonDecodeError => "Expecting value"

/-- Existence snapshot of one dispatch's scratch area: the `mkdtemp`
directory and the two artifact files created inside it. -/
structure WorkspaceFS where
  dirExists : Bool
  shipFileExists : Bool
  cargoFileExists : Bool
deriving DecidableEq, Repr

/-- Filesystem state before a dispatch: nothing of this workspace exists. -/
def FS.clean : WorkspaceFS := ⟨false, false, false⟩

/-- Serialization `write_ship_config` (app_prod.py 151-158): the file is created by
`open(filepath, 'w')` before any field is read, then the f-strings index
`ship_data['length']`, `['width']`, `['max_weight']` (KeyError when the
key is absent); `lightship_weight` and `lightship_kg` use `.get` with
defaults, so they never raise. -/
def shipWriteExc (s : ShipData) : Option PyExc :=
  match s.length with
  | none => some .keyError
  | some _ =>
    match s.width with
    | none => some .keyError
    | some _ =>
      match s.max_weight with
      | none => some .keyError
      | some _ => none

/-- Failure of writing one manifest line (`write_cargo_manifest`,
app_prod.py 160-167): `cargo['id']`, `cargo['weight']`,
`cargo['dimensions'][0..2]` are mandatory accesses (KeyError /
IndexError); `cargo.get('type', 'standard')` never raises. -/
def itemWriteExc (c : CargoItem) : Option PyExc :=
  match c.id with
  | none => some .keyError
  | some _ =>
    match c.weight with
    | none => some .keyError
    | some _ =>
      match c.dimensions with
      | none => some .keyError
      | some ds => if ds.length < 3 then some .indexError else none

/-- First exception raised while writing the cargo manifest, walking the
items in order as the Python loop does. -/
def cargoWriteExc (cargo : List CargoItem) : Option PyExc :=
  cargo.findSome? itemWriteExc

/-- Field `analysis.placed_count` of the solver's parsed JSON, the only field
of the parsed payload the handlers read
(`result['analysis']['placed_count']`, app_prod.py 480); `none` models a
payload without that path, whose access raises KeyError. -/
structure SolverResponse where
  placedCount : Option Int
deriving DecidableEq, Repr

/-- Observable behaviour of one `subprocess.run([...], timeout=30)` call:
either the binary finishes with an exit code and captured streams, or
`subprocess.TimeoutExpired` is raised. -/
inductive SolverBehavior where
  | completes (returncode : Int) (stdout stderr : String)
  | timesOut
deriving DecidableEq, Repr

/-- Extraction `result.stdout[json_start:]` where `json_start = stdout.find('{')`:
`none` when no brace occurs (the `json_start == -1` branch), otherwise
the substring starting at the first brace. -/
def fromFirstBrace (s : String) : Option String :=
  match s.toList.dropWhile (fun c => c ≠ '{') with
  | [] => none
  | l => some (String.mk l)

/-- Warnings `result.stderr.strip().split('\n') if result.stderr else []`
(app_prod.py 203 / app.py 93). -/
def stderrWarnings (stderr : String) : List String :=
  if stderr = "" then [] else stderr.trim.splitOn "\n"

/-- Value produced by `run_optimization` (app_prod.py 169-214), one
constructor per exit of the function body: the success triple, the
`returncode != 0` triple carrying stderr, the no-brace triple carrying
the literal `'No JSON output'`, and an exception propagating out of the
`try` (through the `finally` cleanup). -/
inductive RunResult where
  | ok (resp : SolverResponse) (warnings : List String)
  | failed (stderr : String)
  | noJson
  | raised (e : PyExc)
deriving DecidableEq, Repr

/-- The `error` component of `run_optimization`'s returned triple
(`None, execution_time, result.stderr` / `'No JSON output'`). -/
def RunResult.errText : RunResult → Option String
  | .failed s => some s
  | .noJson => some "No JSON output"
  | _ => none

/-- What one call to `run_optimization` leaves behind: its value, the
final state of its workspace, and whether `subprocess.run` was reached. -/
structure RunOut where
  res : RunResult
  fs : WorkspaceFS
  solverInvoked : Bool
deriving DecidableEq, Repr

/-- The `finally` block of `run_optimization` (app_prod.py 208-214), a
single `try: remove(ship); remove(cargo); rmdir(dir) except: pass`: the
removals run in order and the first failing step aborts the rest, so a
missing cargo file leaves the directory behind.  `rmdir` succeeds because
the directory holds nothing but the two artifact files. -/
def cleanupFS (fs : WorkspaceFS) : WorkspaceFS :=
  if fs.shipFileExists then
    if fs.cargoFileExists then ⟨false, false, false⟩
    else ⟨fs.dirExists, false, false⟩
  else fs

/-- Function `run_optimization(ship_data, cargo_list)` (app_prod.py 169-214).
`mkdtemp` creates the directory; `write_ship_config` creates the ship
file and may raise; `write_cargo_manifest` creates the cargo file and may
raise; then the subprocess runs (`sb`), its outcome is classified, and
the `finally` block runs on every exit.  `parse` stands for `json.loads`
on the extracted payload (`none` = `json.JSONDecodeError`). -/
def run_optimization (ship : ShipData) (cargo : List CargoItem)
    (sb : SolverBehavior) (parse : String → Option SolverResponse) : RunOut :=
  match shipWriteExc ship with
  | some e => ⟨.raised e, cleanupFS ⟨true, true, false⟩, false⟩
  | none =>
    match cargoWriteExc cargo with
    | some e => ⟨.raised e, cleanupFS ⟨true, true, true⟩, false⟩
    | none =>
      match sb with
      | .timesOut => ⟨.raised .timeoutExpired, cleanupFS ⟨true, true, true⟩, true⟩
      | .completes rc out err =>
        if rc ≠ 0 then ⟨.failed err, cleanupFS ⟨true, true, true⟩, true⟩
        else
          match fromFirstBrace out with
          | none => ⟨.noJson, cleanupFS ⟨true, true, true⟩, true⟩
          | some payload =>
            match parse payload with
            | none => ⟨.raised .jsonDecodeError, cleanupFS ⟨true, true, true⟩, true⟩
            | some resp => ⟨.ok resp (stderrWarnings err), cleanupFS ⟨true, true, true⟩, true⟩

/-- A JSON response body of the backend: a bare `{'error': msg}`, the
429 body `{'error': msg, 'limit': n}`, or a solver result with its
attached `execution` block. -/
inductive Body where
  | errorMsg (msg : String)
  | errorWithLimit (msg : String) (limit : Nat)
  | result (resp : SolverResponse) (warnings : List String)
deriving DecidableEq, Repr

/-- An HTTP response: status code and JSON body. -/
structure HttpOut where
  status : Nat
  body : Body
deriving DecidableEq, Repr

/-- Everything observable about one call of an optimize endpoint: the
HTTP response, the ledger after the call, whether the solver subprocess
was ever started, and the final state of the dispatch's workspace. -/
structure DispatchOut where
  http : HttpOut
  logs : List LogEntry
  solverInvoked : Bool
  fs : WorkspaceFS
deriving DecidableEq, Repr

/-- The production `optimize` handler (app_prod.py 458-489).  `d = none`
models a falsy `request.json`; `user` is `current_user` when
authenticated.  On success with an authenticated user one
`OptimizationLog(success=True)` row is appended — reading
`result['analysis']['placed_count']` first, which raises (and yields the
catch-all 500) when the parsed payload lacks that path.  Every raised
exception lands in `except Exception as e: 500 str(e)`; there is no
dedicated timeout branch in this file. -/
def optimizeProd (d : Option RequestData) (user : Option DbUser)
    (logs : List LogEntry) (sb : SolverBehavior)
    (parse : String → Option SolverResponse) (elapsedMs now : Rat) : DispatchOut :=
  match d with
  | none => ⟨⟨400, .errorMsg "Missing ship or cargo data"⟩, logs, false, FS.clean⟩
  | some data =>
    match data.ship, data.cargo with
    | some ship, some cargo =>
      let r := run_optimization ship cargo sb parse
      match r.res with
      | .raised e => ⟨⟨500, .errorMsg (excText e)⟩, logs, r.solverInvoked, r.fs⟩
      | .failed s =>
        ⟨⟨500, .errorMsg ("Optimization failed: " ++ s)⟩, logs, r.solverInvoked, r.fs⟩
      | .noJson =>
        ⟨⟨500, .errorMsg ("Optimization failed: " ++ "No JSON output")⟩, logs,
          r.solverInvoked, r.fs⟩
      | .ok resp warnings =>
        match user with
        | none => ⟨⟨200, .result resp warnings⟩, logs, r.solverInvoked, r.fs⟩
        | some u =>
          match resp.placedCount with
          | none => ⟨⟨500, .errorMsg (excText .keyError)⟩, logs, r.solverInvoked, r.fs⟩
          | some pc =>
            ⟨⟨200, .result resp warnings⟩,
              logs ++ [⟨some u.uid, elapsedMs, cargo.length, pc, true, now⟩],
              r.solverInvoked, r.fs⟩
    | _, _ => ⟨⟨400, .errorMsg "Missing ship or cargo data"⟩, logs, false, FS.clean⟩

/-- The development `optimize` handler (app.py 44-112).  Same workspace
and subprocess structure, but `subprocess.TimeoutExpired` has its own
`except` arm returning 408 and `json.JSONDecodeError` its own 500 arm;
there is no ledger in this file at all. -/
def optimizeDev (d : Option RequestData) (sb : SolverBehavior)
    (parse : String → Option SolverResponse) : DispatchOut :=
  match d with
  | none => ⟨⟨400, .errorMsg "Missing ship or cargo data"⟩, [], false, FS.clean⟩
  | some data =>
    match data.ship, data.cargo with
    | some ship, some cargo =>
      let r := run_optimization ship cargo sb parse
      match r.res with
      | .raised .timeoutExpired =>
        ⟨⟨408, .errorMsg "Optimization timeout (>30s)"⟩, [], r.solverInvoked, r.fs⟩
      | .raised .jsonDecodeError =>
        ⟨⟨500, .errorMsg ("Invalid JSON output: " ++ excText .jsonDecodeError)⟩, [],
          r.solverInvoked, r.fs⟩
      | .raised e => ⟨⟨500, .errorMsg (excText e)⟩, [], r.solverInvoked, r.fs⟩
      | .failed s =>
        ⟨⟨500, .errorMsg ("Optimization failed: " ++ s)⟩, [], r.solverInvoked, r.fs⟩
      | .noJson =>
        ⟨⟨500, .errorMsg "No JSON output from optimizer"⟩, [], r.solverInvoked, r.fs⟩
      | .ok resp warnings => ⟨⟨200, .result resp warnings⟩, [], r.solverInvoked, r.fs⟩
    | _, _ => ⟨⟨400, .errorMsg "Missing ship or cargo data"⟩, [], false, FS.clean⟩

/-- The `api_key_required` guard (app_prod.py 123-147) wrapped around a
handler body `f`: missing header → 401, unknown key → 401, ledger count
for today at or above the tier limit → 429 with the limit in the body,
otherwise the wrapped handler runs with the resolved user. -/
def api_key_required (apiKeyHeader : Option String) (users : List DbUser)
    (logs : List LogEntry) (todayStart : Rat)
    (f : DbUser → DispatchOut) : DispatchOut :=
  match apiKeyHeader with
  | none => ⟨⟨401, .errorMsg "API key required"⟩, logs, false, FS.clean⟩
  | some k =>
    match users.find? (fun u => u.api_key == some k) with
    | none => ⟨⟨401, .errorMsg "Invalid API key"⟩, logs, false, FS.clean⟩
    | some u =>
      if daily_limit u.subscription_tier ≤ todayCount logs u.uid todayStart then
        ⟨⟨429, .errorWithLimit "Daily limit exceeded" (daily_limit u.subscription_tier)⟩,
          logs, false, FS.clean⟩
      else f u

/-- Pattern `Model.query.filter_by(col=v).first()` followed by a mutation and
commit: update the first row matching the predicate, leave the rest
untouched (the matched columns are unique, so at most one row matches in
a real database; the model does not need that assumption). -/
def updateFirst (p : DbUser → Bool) (f : DbUser → DbUser) : List DbUser → List DbUser
  | [] => []
  | u :: rest => if p u then f u :: rest else u :: updateFirst p f rest

/-- Payload of a `checkout.session.completed` event as read by the
handler: `customer_email`, `customer`, `subscription`,
`metadata.tier`. -/
structure CheckoutSession where
  customer_email : Option String
  customer : Option String
  subscription : Option String
  metadataTier : Option String
deriving DecidableEq, Repr

/-- Payload of an `invoice.payment_succeeded` / `payment_failed` event
as read by the handlers: `customer` and `subscription`. -/
structure InvoiceEvent where
  customer : Option String
  subscription : Option String
deriving DecidableEq, Repr

/-- Payload of a `customer.subscription.updated` event as read by the
handler: `customer`, `id`, `status`, `cancel_at_period_end`. -/
structure SubUpdatedEvent where
  customer : Option String
  subId : Option String
  subStatus : Option String
  cancelAtPeriodEnd : Bool
deriving DecidableEq, Repr

/-- Payload of a `customer.subscription.deleted` event as read by the
handler: only `customer`. -/
structure SubDeletedEvent where
  customer : Option String
deriving DecidableEq, Repr

/-- Row mutation of `handle_checkout_completed`: tier :=
`metadata.tier` defaulting to `'pro'`, the Stripe customer and
subscription references are stored, status := `'active'`. -/
def checkoutApply (s : CheckoutSession) (u : DbUser) : DbUser :=
  { u with
    subscription_tier := s.metadataTier.getD "pro"
    stripe_customer_id := s.customer
    stripe_subscription_id := s.subscription
    subscription_status := some "active" }

/-- Row mutation of `handle_invoice_paid`: status := `'active'`, the
subscription reference is refreshed. -/
def invoicePaidApply (inv : InvoiceEvent) (u : DbUser) : DbUser :=
  { u with
    subscription_status := some "active"
    stripe_subscription_id := inv.subscription }

/-- Row mutation of `handle_invoice_failed`: status := `'past_due'`. -/
def invoiceFailedApply (u : DbUser) : DbUser :=
  { u with subscription_status := some "past_due" }

/-- Row mutation of `handle_subscription_updated`: status := the
event's raw status and the subscription reference is refreshed, then
`cancel_at_period_end` overwrites the status with `'canceling'`. -/
def subUpdatedApply (s : SubUpdatedEvent) (u : DbUser) : DbUser :=
  let u1 := { u with
    subscription_status := s.subStatus
    stripe_subscription_id := s.subId }
  if s.cancelAtPeriodEnd then { u1 with subscription_status := some "canceling" }
  else u1

/-- Row mutation of `handle_subscription_deleted`: tier := `'free'`,
status := `'canceled'`, the subscription reference is cleared — the
customer reference is **not** cleared. -/
def subDeletedApply (u : DbUser) : DbUser :=
  { u with
    subscription_tier := "free"
    subscription_status := some "canceled"
    stripe_subscription_id := none }

/-- Handler `WebhookHandler.handle_checkout_completed` (stripe_integration.py
166-194): the user is looked up **by email**
(`User.query.filter_by(email=customer_email).first()`); when no user
matches, the event is logged and dropped. -/
def handle_checkout_completed (s : CheckoutSession) (db : List DbUser) : List DbUser :=
  updateFirst (fun u => some u.email == s.customer_email) (checkoutApply s) db

/-- Handler `WebhookHandler.handle_invoice_paid` (stripe_integration.py
196-220): lookup by `stripe_customer_id`; unknown customer → dropped. -/
def handle_invoice_paid (inv : InvoiceEvent) (db : List DbUser) : List DbUser :=
  updateFirst (fun u => u.stripe_customer_id == inv.customer) (invoicePaidApply inv) db

/-- Handler `WebhookHandler.handle_invoice_failed` (stripe_integration.py
222-244): lookup by `stripe_customer_id`; unknown customer → dropped. -/
def handle_invoice_failed (inv : InvoiceEvent) (db : List DbUser) : List DbUser :=
  updateFirst (fun u => u.stripe_customer_id == inv.customer) invoiceFailedApply db

/-- Handler `WebhookHandler.handle_subscription_updated` (stripe_integration.py
246-276): lookup by `stripe_customer_id`; unknown customer → dropped. -/
def handle_subscription_updated (s : SubUpdatedEvent) (db : List DbUser) : List DbUser :=
  updateFirst (fun u => u.stripe_customer_id == s.customer) (subUpdatedApply s) db

/-- Handler `WebhookHandler.handle_subscription_deleted` (stripe_integration.py
278-302): lookup by `stripe_customer_id`; unknown customer → dropped. -/
def handle_subscription_deleted (s : SubDeletedEvent) (db : List DbUser) : List DbUser :=
  updateFirst (fun u => u.stripe_customer_id == s.customer) subDeletedApply db

/-- Error lines the `validate` endpoint (app.py 188-224) produces for
one cargo item at position `i` (0-based; the messages use `i+1`), in the
order the Python code appends them: falsy id, non-positive weight
(default 0), then the combined dimensions check
`len(dims) != 3 or any(d <= 0 for d in dims)`.  The message label is
`item.get('id', i+1)`: the stored id when the key exists (even when
empty), else the 1-based index. -/
def itemErrors (i : Nat) (c : CargoItem) : List String :=
  let label := match c.id with
    | some s => s
    | none => toString (i + 1)
  (if (c.id.getD "") = "" then ["Cargo " ++ toString (i + 1) ++ ": ID required"] else [])
    ++ (if c.weight.getD 0 ≤ 0 then
          ["Cargo " ++ label ++ ": Weight must be positive"] else [])
    ++ (if (c.dimensions.getD []).length ≠ 3 ∨ ∃ x ∈ c.dimensions.getD [], x ≤ 0 then
          ["Cargo " ++ label ++ ": Invalid dimensions"] else [])

/-- The error lines of the per-item loop, walking the cargo list with
its enumeration index. -/
def cargoErrors : Nat → List CargoItem → List String
  | _, [] => []
  | i, c :: rest => itemErrors i c ++ cargoErrors (i + 1) rest

/-- The default (all keys absent) ship object, `data.get('ship', {})`. -/
def emptyShip : ShipData := ⟨none, none, none, none, none⟩

/-- The full error list built by the `validate` endpoint: the three ship
checks (each `ship.get(key, 0) <= 0` on the possibly-absent ship dict),
the empty-cargo check, then the per-item loop. -/
def validateErrors (d : RequestData) : List String :=
  let ship := d.ship.getD emptyShip
  let cargo := d.cargo.getD []
  (if ship.length.getD 0 ≤ 0 then ["Ship length must be positive"] else [])
    ++ (if ship.width.getD 0 ≤ 0 then ["Ship width must be positive"] else [])
    ++ (if ship.max_weight.getD 0 ≤ 0 then ["Ship max weight must be positive"] else [])
    ++ (if cargo.isEmpty then ["At least one cargo item required"] else [])
    ++ cargoErrors 0 cargo

/-- Response of the `validate` endpoint:
`{'valid': len(errors) == 0, 'errors': errors}`.  The handler touches no
database and writes nothing; its embedding is a pure function of the
request body. -/
structure ValidateResp where
  valid : Bool
  errors : List String
deriving DecidableEq, Repr

/-- The `validate` endpoint (app.py 188-224) on a parsed JSON body. -/
def validate (d : RequestData) : ValidateResp :=
  ⟨(validateErrors d).length = 0, validateErrors d⟩

/-- Stated from the claim's words, for comparison with `validate`: a
cargo item is well-formed when it has a non-empty id, a positive weight,
and a dimensions list of exactly three positive entries. -/
def specItemOk (c : CargoItem) : Prop :=
  c.id.getD "" ≠ "" ∧ 0 < c.weight.getD 0 ∧
    (c.dimensions.getD []).length = 3 ∧ ∀ x ∈ c.dimensions.getD [], 0 < x

/-- Stated from the claim's words, for comparison with `validate`: ship
length, width and max_weight are each positive, the cargo list is
non-empty, and every cargo item is well-formed. -/
def specValidRequest (d : RequestData) : Prop :=
  0 < (d.ship.getD emptyShip).length.getD 0 ∧
    0 < (d.ship.getD emptyShip).width.getD 0 ∧
    0 < (d.ship.getD emptyShip).max_weight.getD 0 ∧
    d.cargo.getD [] ≠ [] ∧ ∀ c ∈ d.cargo.getD [], specItemOk c

/-- Number of violated conditions of one cargo item, counting the
claim's three per-item conditions (the dimension-count and
dimension-positivity requirements form one condition, as in the code's
single `Invalid dimensions` check). -/
def itemViolationCount (c : CargoItem) : Nat :=
  (if c.id.getD "" = "" then 1 else 0) +
    ((if c.weight.getD 0 ≤ 0 then 1 else 0) +
      (if (c.dimensions.getD []).length ≠ 3 ∨ ∃ x ∈ c.dimensions.getD [], x ≤ 0
        then 1 else 0))

/-- Number of violated conditions of a whole request: the three ship
conditions, the non-empty-cargo condition, and the per-item counts. -/
def violationCount (d : RequestData) : Nat :=
  (if (d.ship.getD emptyShip).length.getD 0 ≤ 0 then 1 else 0) +
    ((if (d.ship.getD emptyShip).width.getD 0 ≤ 0 then 1 else 0) +
      ((if (d.ship.getD emptyShip).max_weight.getD 0 ≤ 0 then 1 else 0) +
        ((if (d.cargo.getD []).isEmpty then 1 else 0) +
          ((d.cargo.getD []).map itemViolationCount).sum)))

/-- The database and event of the C8 counterexample: the stored user's
customer reference is `cus_1`, the event's is `cus_2` — unknown to the
store — yet the checkout handler, keying on the email, still mutates the
user. -/
def c8db : List DbUser :=
  [⟨1, "a@b.c", "free", some "active", some "cus_1", none, none⟩]

/-- Checkout event whose customer reference matches no stored user but
whose email does. -/
def c8evt : CheckoutSession := ⟨some "a@b.c", some "cus_2", some "sub_9", some "pro"⟩

/-- Spec vocabulary for solver outcomes (§3 SolverOutcome of the spec),
to compare `run_optimization`'s exits against the claimed
classification. -/
inductive SolverOutcome where
  | success (resp : SolverResponse) (warnings : List String)
  | solverFailed (diagnostics : String)
  | malformedOutput
  | timeout
  | writeFailure (e : PyExc)
deriving DecidableEq, Repr

/-- How each exit of `run_optimization` reads in the spec's taxonomy:
the nonzero-exit triple is `SolverFailed` with the captured stderr, the
no-brace triple and the JSON-parse exception are `MalformedOutput`, the
timeout exception is `Timeout`, and artifact-write exceptions fall
outside the solver classification. -/
def specOutcome : RunResult → SolverOutcome
  | .ok r w => .success r w
  | .failed s => .solverFailed s
  | .noJson => .malformedOutput
  | .raised .jsonDecodeError => .malformedOutput
  | .raised .timeoutExpired => .timeout
  | .raised e => .writeFailure e

/-- A valid ship object used by concrete witnesses. -/
def shipW : ShipData := ⟨some 100, some 20, some 1000000, none, none⟩

/-- A well-formed cargo item used by concrete witnesses. -/
def itemW : CargoItem := ⟨some "c1", some 5, some [1, 1, 1], some "standard"⟩

/-- A cargo item with non-positive weight but otherwise complete keys:
malformed in the spec's sense, yet serializable by
`write_cargo_manifest`. -/
def itemBadWeight : CargoItem := ⟨some "c2", some (-1), some [1, 1, 1], none⟩

/-- A parse function standing for `json.loads` succeeding with a
payload whose `analysis.placed_count` is 1. -/
def parseOkW : String → Option SolverResponse := fun _ => some ⟨some 1⟩

/-- An authenticated user for concrete witnesses. -/
def userW : DbUser := ⟨7, "u@x.y", "free", some "active", none, none, some "k1"⟩

/-- A ledger already holding ten usage records for `userW` from the
current UTC day: the free tier's daily limit is exhausted. -/
def logs10 : List LogEntry := List.replicate 10 ⟨some 7, 12, 3, 3, true, 100⟩

/-- The only condition under which the optimize handlers return 400:
a falsy body, or a body missing the `ship` or `cargo` key. -/
def missingShipOrCargo : Option RequestData → Prop
  | none => True
  | some data => data.ship = none ∨ data.cargo = none

lemma itemErrors_length (i : Nat) (c : CargoItem) :
    (itemErrors i c).length = itemViolationCount c := by
  simp only [itemErrors, itemViolationCount, List.length_append]
  split_ifs <;> simp

lemma cargoErrors_length (cargo : List CargoItem) :
    ∀ i, (cargoErrors i cargo).length = (cargo.map itemViolationCount).sum := by
  induction cargo with
  | nil => intro i; simp [cargoErrors]
  | cons c rest ih =>
    intro i
    simp [cargoErrors, itemErrors_length, ih (i + 1)]

lemma validateErrors_length (d : RequestData) :
    (validateErrors d).length = violationCount d := by
  simp only [validateErrors, violationCount, List.length_append, cargoErrors_length]
  split_ifs <;> simp <;> omega

lemma ite_one_zero_eq_zero (P : Prop) [Decidable P] :
    (if P then (1 : Nat) else 0) = 0 ↔ ¬P := by
  split_ifs with h <;> simp [h]

lemma itemViolationCount_eq_zero (c : CargoItem) :
    itemViolationCount c = 0 ↔ specItemOk c := by
  unfold itemViolationCount specItemOk
  rw [Nat.add_eq_zero, Nat.add_eq_zero, ite_one_zero_eq_zero, ite_one_zero_eq_zero,
    ite_one_zero_eq_zero]
  push_neg
  tauto

/-- C10: on every parsed JSON body, the validation endpoint reports
`valid = true` exactly when the ship's length, width and max-weight are
positive, the cargo list is non-empty, and every cargo item has a
non-empty id, a positive weight and exactly three positive dimensions;
and its `errors` list carries exactly one message per violated
condition.  The handler reads the request and builds the response
without touching any stored state (its embedding is a pure function). -/
theorem C10_validate_characterization (d : RequestData) :
    ((validate d).valid = true ↔ specValidRequest d) ∧
      (validate d).errors.length = violationCount d := by
  refine ⟨?_, validateErrors_length d⟩
  simp only [validate, decide_eq_true_eq]
  rw [validateErrors_length]
  unfold violationCount specValidRequest
  rw [Nat.add_eq_zero, Nat.add_eq_zero, Nat.add_eq_zero, Nat.add_eq_zero,
    ite_one_zero_eq_zero, ite_one_zero_eq_zero, ite_one_zero_eq_zero,
    ite_one_zero_eq_zero, List.sum_eq_zero_iff]
  simp only [List.mem_map, forall_exists_index, and_imp,
    forall_apply_eq_imp_iff₂, itemViolationCount_eq_zero, List.isEmpty_iff,
    not_le]

/-- C9: the daily limit is 10 for the free tier, 1000 for pro, 10000 for
enterprise, and every other tier string falls back to the free limit of
10. -/
theorem C9_daily_limit_mapping :
    daily_limit "free" = 10 ∧ daily_limit "pro" = 1000 ∧
      daily_limit "enterprise" = 10000 ∧
      ∀ t : String, t ≠ "free" → t ≠ "pro" → t ≠ "enterprise" → daily_limit t = 10 := by
  refine ⟨by decide, by decide, by decide, ?_⟩
  intro t h1 h2 h3
  have e1 : ("free" == t) = false := beq_eq_false_iff_ne.mpr (Ne.symm h1)
  have e2 : ("pro" == t) = false := beq_eq_false_iff_ne.mpr (Ne.symm h2)
  have e3 : ("enterprise" == t) = false := beq_eq_false_iff_ne.mpr (Ne.symm h3)
  simp [daily_limit, tierLimits, List.find?, e1, e2, e3]

/-- Witness for C9 at a tier string outside the static mapping. -/
theorem C9_witness : daily_limit "platinum" = 10 :=
  C9_daily_limit_mapping.2.2.2 "platinum" (by decide) (by decide) (by decide)

lemma updateFirst_idem (p : DbUser → Bool) (f : DbUser → DbUser)
    (hp : ∀ u, p (f u) = p u) (hf : ∀ u, f (f u) = f u) (l : List DbUser) :
    updateFirst p f (updateFirst p f l) = updateFirst p f l := by
  induction l with
  | nil => rfl
  | cons u rest ih =>
    by_cases h : p u
    · simp [updateFirst, h, hp u, hf u]
    · simp [updateFirst, h, ih]

lemma updateFirst_find? (p : DbUser → Bool) (f : DbUser → DbUser)
    (hp : ∀ u, p (f u) = p u) (l : List DbUser) :
    (updateFirst p f l).find? p = (l.find? p).map f := by
  induction l with
  | nil => rfl
  | cons u rest ih =>
    by_cases h : p u
    · simp [updateFirst, h, List.find?, hp u]
    · simp [updateFirst, h, List.find?, ih]

lemma updateFirst_no_match (p : DbUser → Bool) (f : DbUser → DbUser)
    (l : List DbUser) (h : ∀ u ∈ l, p u = false) : updateFirst p f l = l := by
  induction l with
  | nil => rfl
  | cons u rest ih =>
    simp [updateFirst, h u (by simp)]
    exact ih fun v hv => h v (by simp [hv])

/-- C6: the checkout-completed handler is idempotent — applying it twice
with the same event payload leaves every user row (tier, status,
customer and subscription references included) exactly as applying it
once does, because each transition writes values computed from the event
alone and does not change the email the lookup keys on. -/
theorem C6_checkout_idempotent (s : CheckoutSession) (db : List DbUser) :
    handle_checkout_completed s (handle_checkout_completed s db) =
      handle_checkout_completed s db := by
  unfold handle_checkout_completed
  exact updateFirst_idem (fun u => some u.email == s.customer_email)
    (checkoutApply s) (fun u => rfl) (fun u => rfl) db

/-- C7: after a `SubscriptionDeleted` followed by a stale `InvoicePaid`
for the same customer, the first principal stored under that customer
reference ends with `subscription_status = 'active'` (the last-applied
event wins) while `subscription_tier` stays `'free'` — the deleted
handler leaves the customer reference in place, so the stale invoice
re-finds the row and flips only the status. -/
theorem C7_out_of_order_states (db : List DbUser) (c : String)
    (sub : Option String) (u : DbUser)
    (hu : db.find? (fun v => v.stripe_customer_id == some c) = some u) :
    (handle_invoice_paid ⟨some c, sub⟩
        (handle_subscription_deleted ⟨some c⟩ db)).find?
        (fun v => v.stripe_customer_id == some c) =
      some { u with
        subscription_tier := "free"
        subscription_status := some "active"
        stripe_subscription_id := sub } := by
  have hdel := updateFirst_find? (fun v => v.stripe_customer_id == some c)
    subDeletedApply (fun v => rfl) db
  rw [hu] at hdel
  have hpaid := updateFirst_find? (fun v => v.stripe_customer_id == some c)
    (invoicePaidApply ⟨some c, sub⟩) (fun v => rfl)
    (updateFirst (fun v => v.stripe_customer_id == some c) subDeletedApply db)
  rw [hdel] at hpaid
  exact hpaid.trans rfl

/-- Witness for C7: one pro user stored under `cus_1`; after the deleted
event and the stale invoice, the row reads tier `free`, status
`active`. -/
theorem C7_witness :
    (handle_invoice_paid ⟨some "cus_1", some "sub_2"⟩
        (handle_subscription_deleted ⟨some "cus_1"⟩
          [⟨1, "a@b.c", "pro", some "active", some "cus_1", some "sub_1", none⟩])).find?
        (fun v => v.stripe_customer_id == some "cus_1") =
      some ⟨1, "a@b.c", "free", some "active", some "cus_1", some "sub_2", none⟩ :=
  C7_out_of_order_states
    [⟨1, "a@b.c", "pro", some "active", some "cus_1", some "sub_1", none⟩]
    "cus_1" (some "sub_2")
    ⟨1, "a@b.c", "pro", some "active", some "cus_1", some "sub_1", none⟩ (by decide)

/-- C8 counterexample: a `CheckoutCompleted` event whose customer
reference (`cus_2`) matches no stored principal is not dropped — the
handler locates the user by email and rewrites their tier and
references, so principal state changes. -/
theorem C8_counterexample :
    (∀ u ∈ c8db, u.stripe_customer_id ≠ c8evt.customer) ∧
      handle_checkout_completed c8evt c8db ≠ c8db := by
  decide

/-- C8 amended: the invoice-paid, invoice-failed, subscription-updated
and subscription-deleted handlers key their lookup on the external
customer reference and drop (state unchanged) any event whose reference
matches no stored principal; the checkout-completed handler instead keys
on the event's customer email, and drops only events whose email matches
no stored principal. -/
theorem C8_amended_lookup_and_drop (db : List DbUser) :
    (∀ s : CheckoutSession,
      (∀ u ∈ db, (some u.email == s.customer_email) = false) →
        handle_checkout_completed s db = db) ∧
    (∀ inv : InvoiceEvent,
      (∀ u ∈ db, (u.stripe_customer_id == inv.customer) = false) →
        handle_invoice_paid inv db = db) ∧
    (∀ inv : InvoiceEvent,
      (∀ u ∈ db, (u.stripe_customer_id == inv.customer) = false) →
        handle_invoice_failed inv db = db) ∧
    (∀ s : SubUpdatedEvent,
      (∀ u ∈ db, (u.stripe_customer_id == s.customer) = false) →
        handle_subscription_updated s db = db) ∧
    (∀ s : SubDeletedEvent,
      (∀ u ∈ db, (u.stripe_customer_id == s.customer) = false) →
        handle_subscription_deleted s db = db) :=
  ⟨fun _ h => updateFirst_no_match _ _ db h,
   fun _ h => updateFirst_no_match _ _ db h,
   fun _ h => updateFirst_no_match _ _ db h,
   fun _ h => updateFirst_no_match _ _ db h,
   fun _ h => updateFirst_no_match _ _ db h⟩

lemma run_write_ok_cases (ship : ShipData) (cargo : List CargoItem)
    (sb : SolverBehavior) (parse : String → Option SolverResponse)
    (hs : shipWriteExc ship = none) (hc : cargoWriteExc cargo = none) :
    (run_optimization ship cargo sb parse).fs = FS.clean ∧
      (run_optimization ship cargo sb parse).solverInvoked = true := by
  cases sb with
  | timesOut => simp [run_optimization, hs, hc, cleanupFS, FS.clean]
  | completes rc out err =>
    by_cases h : rc = 0
    · cases hfb : fromFirstBrace out with
      | none => simp [run_optimization, hs, hc, h, hfb, cleanupFS, FS.clean]
      | some payload =>
        cases hp : parse payload with
        | none => simp [run_optimization, hs, hc, h, hfb, hp, cleanupFS, FS.clean]
        | some resp => simp [run_optimization, hs, hc, h, hfb, hp, cleanupFS, FS.clean]
    · simp [run_optimization, hs, hc, h, cleanupFS, FS.clean]

lemma run_cargo_write_fail (ship : ShipData) (cargo : List CargoItem)
    (sb : SolverBehavior) (parse : String → Option SolverResponse) (exc : PyExc)
    (hs : shipWriteExc ship = none) (hc : cargoWriteExc cargo = some exc) :
    run_optimization ship cargo sb parse = ⟨.raised exc, FS.clean, false⟩ := by
  unfold run_optimization
  rw [hs, hc]
  rfl

lemma run_timeout (ship : ShipData) (cargo : List CargoItem)
    (parse : String → Option SolverResponse)
    (hs : shipWriteExc ship = none) (hc : cargoWriteExc cargo = none) :
    run_optimization ship cargo .timesOut parse =
      ⟨.raised .timeoutExpired, FS.clean, true⟩ := by
  unfold run_optimization
  rw [hs, hc]
  rfl

lemma dropWhile_head_false (p : Char → Bool) (l : List Char) :
    ∀ c rest, l.dropWhile p = c :: rest → p c = false := by
  induction l with
  | nil => intro c rest h; simp at h
  | cons a tl ih =>
    intro c rest h
    by_cases hp : p a
    · rw [List.dropWhile_cons_of_pos hp] at h; exact ih c rest h
    · rw [List.dropWhile_cons_of_neg hp] at h
      cases h
      simpa using hp

lemma fromFirstBrace_eq_none_iff (s : String) :
    fromFirstBrace s = none ↔ '{' ∉ s.toList := by
  unfold fromFirstBrace
  cases h : s.toList.dropWhile (fun c => c ≠ '{') with
  | nil =>
    simp only [List.dropWhile_eq_nil_iff] at h
    simp only [true_iff]
    intro hmem
    have := h _ hmem
    simp at this
  | cons c rest =>
    simp only [reduceCtorEq, false_iff, not_not]
    have hc : (decide (c ≠ '{')) = false := dropWhile_head_false _ _ c rest h
    have hceq : c = '{' := by simpa using hc
    have hmem : c ∈ s.toList.dropWhile (fun x => x ≠ '{') := by rw [h]; exact List.mem_cons_self c rest
    exact hceq ▸ (List.dropWhile_sublist _).subset hmem

/-- C4: classification of a completed solver invocation, as performed by
`run_optimization` (app_prod.py 191-206), read in the spec's outcome
vocabulary: nonzero exit → `SolverFailed` carrying the captured stderr;
zero exit with no `{` anywhere in stdout → `MalformedOutput`; otherwise
the payload is the stdout substring starting at the first `{` (the text
before it is brace-free), a failed parse of it → `MalformedOutput`, and
a successful parse → `Success` with the stderr lines attached as
warnings. -/
theorem C4_outcome_classification (ship : ShipData) (cargo : List CargoItem)
    (parse : String → Option SolverResponse) (rc : Int) (out err : String)
    (hs : shipWriteExc ship = none) (hc : cargoWriteExc cargo = none) :
    (rc ≠ 0 →
      specOutcome (run_optimization ship cargo (.completes rc out err) parse).res =
        .solverFailed err) ∧
    (rc = 0 → '{' ∉ out.toList →
      specOutcome (run_optimization ship cargo (.completes rc out err) parse).res =
        .malformedOutput) ∧
    (rc = 0 → ∀ payload, fromFirstBrace out = some payload → parse payload = none →
      specOutcome (run_optimization ship cargo (.completes rc out err) parse).res =
        .malformedOutput) ∧
    (rc = 0 → ∀ payload resp, fromFirstBrace out = some payload →
      parse payload = some resp →
      specOutcome (run_optimization ship cargo (.completes rc out err) parse).res =
        .success resp (stderrWarnings err)) ∧
    (∀ payload, fromFirstBrace out = some payload →
      ∃ pre, out.toList = pre ++ payload.toList ∧ ('{' ∉ pre) ∧
        payload.toList.head? = some '{') := by
  refine ⟨?_, ?_, ?_, ?_, ?_⟩
  · intro h
    simp [run_optimization, hs, hc, h, specOutcome]
  · intro h hb
    have hfb := (fromFirstBrace_eq_none_iff out).mpr hb
    simp [run_optimization, hs, hc, h, hfb, specOutcome]
  · intro h payload hpb hp
    simp [run_optimization, hs, hc, h, hpb, hp, specOutcome]
  · intro h payload resp hpb hp
    simp [run_optimization, hs, hc, h, hpb, hp, specOutcome]
  · intro payload hpb
    unfold fromFirstBrace at hpb
    rcases hd : out.toList.dropWhile (fun c => c ≠ '{') with _ | ⟨c, rest⟩
    · rw [hd] at hpb; simp at hpb
    · rw [hd] at hpb
      have hpay : payload = String.mk (c :: rest) := by
        simpa using hpb.symm
      refine ⟨out.toList.takeWhile (fun c => c ≠ '{'), ?_, ?_, ?_⟩
      · rw [hpay]
        show out.toList = _ ++ (String.mk (c :: rest)).data
        rw [show (String.mk (c :: rest)).data = c :: rest from rfl, ← hd]
        exact (List.takeWhile_append_dropWhile ..).symm
      · intro hmem
        have := List.mem_takeWhile_imp hmem
        simp at this
      · have hc2 : (decide (c ≠ '{')) = false := dropWhile_head_false _ _ c rest hd
        have : c = '{' := by simpa using hc2
        rw [hpay, this]
        rfl

/-- Witness for C4 at a concrete failing invocation: exit code 1 with
diagnostics `boom` classifies as `SolverFailed "boom"`. -/
theorem C4_witness :
    specOutcome (run_optimization shipW [itemW]
        (.completes 1 "plan" "boom") parseOkW).res = .solverFailed "boom" :=
  (C4_outcome_classification shipW [itemW] parseOkW 1 "plan" "boom"
    (by decide) (by decide)).1 (by decide)

/-- C5: whenever the workspace is fully created (the ship and cargo
artifacts serialize without an exception), the dispatch leaves no
workspace behind on any exit path — success, nonzero solver exit,
missing or unparseable JSON (a raised `json.JSONDecodeError`), and
timeout are all covered by quantifying over the solver behaviour and the
parse outcome — and this holds for `run_optimization` itself and through
both HTTP handlers. -/
theorem C5_workspace_cleanup (ship : ShipData) (cargo : List CargoItem)
    (sb : SolverBehavior) (parse : String → Option SolverResponse)
    (u : Option DbUser) (logs : List LogEntry) (elapsedMs now : Rat)
    (hs : shipWriteExc ship = none) (hc : cargoWriteExc cargo = none) :
    (run_optimization ship cargo sb parse).fs = FS.clean ∧
      (optimizeProd (some ⟨some ship, some cargo⟩) u logs sb parse elapsedMs now).fs =
        FS.clean ∧
      (optimizeDev (some ⟨some ship, some cargo⟩) sb parse).fs = FS.clean := by
  have hfs := (run_write_ok_cases ship cargo sb parse hs hc).1
  refine ⟨hfs, ?_, ?_⟩
  · simp only [optimizeProd]
    split <;> (try split) <;> (try split) <;> simp_all
  · simp only [optimizeDev]
    split <;> simp_all

/-- C1 (code bug): the entitlement check of `api_key_required` is
applied to no route, so the dispatch endpoint `/api/optimize`
(app_prod.py 458-489) never performs it.  At the failing input — the
free-tier `userW` whose ledger already holds ten records from the
current UTC day, at the limit of 10 — the dispatch still invokes the
solver, answers HTTP 200 and appends an eleventh UsageRecord, where the
claim requires a 429 `EntitlementDenied` carrying the limit with no
solver call and no record.  The guard itself, had any route applied it,
would have denied exactly as claimed (final conjunct, for every wrapped
body). -/
theorem C1_limit_unenforced_on_dispatch :
    daily_limit userW.subscription_tier ≤ todayCount logs10 userW.uid 0 ∧
      (optimizeProd (some ⟨some shipW, some [itemW]⟩) (some userW) logs10
        (.completes 0 "{}" "") parseOkW 5 200).http.status = 200 ∧
      (optimizeProd (some ⟨some shipW, some [itemW]⟩) (some userW) logs10
        (.completes 0 "{}" "") parseOkW 5 200).solverInvoked = true ∧
      (optimizeProd (some ⟨some shipW, some [itemW]⟩) (some userW) logs10
        (.completes 0 "{}" "") parseOkW 5 200).logs =
        logs10 ++ [⟨some 7, 5, 1, 1, true, 200⟩] ∧
      ∀ f : DbUser → DispatchOut,
        api_key_required (some "k1") [userW] logs10 0 f =
          ⟨⟨429, .errorWithLimit "Daily limit exceeded" 10⟩, logs10, false, FS.clean⟩ :=
  ⟨by decide, by decide, by decide, by decide, fun f => rfl⟩

/-- C2 counterexample: a request whose only cargo item has weight −1
(complete keys, three positive dimensions) is **not** rejected with a
400 ValidationError — the production dispatch serializes it, invokes the
solver, and (here, with a succeeding solver and an authenticated user)
appends a UsageRecord. -/
theorem C2_counterexample :
    (⟨some "c2", some (-1), some [1, 1, 1], none⟩ : CargoItem).weight.getD 0 ≤ 0 ∧
      (optimizeProd (some ⟨some shipW, some [itemBadWeight]⟩) (some userW) []
          (.completes 0 "{}" "") parseOkW 5 100).http.status ≠ 400 ∧
      (optimizeProd (some ⟨some shipW, some [itemBadWeight]⟩) (some userW) []
          (.completes 0 "{}" "") parseOkW 5 100).solverInvoked = true ∧
      (optimizeProd (some ⟨some shipW, some [itemBadWeight]⟩) (some userW) []
          (.completes 0 "{}" "") parseOkW 5 100).logs ≠ [] := by
  refine ⟨by norm_num, ?_, ?_, ?_⟩ <;> decide

/-- C2 amended: the optimize handler returns 400 exactly when the body
is falsy or lacks the `ship` or `cargo` key; malformed cargo items are
not screened — when every item serializes (keys present, at least three
dimension entries) the solver is invoked regardless of weight or
dimension signs, while an item that fails to serialize yields a 500
internal error with the solver never invoked and the ledger
unchanged. -/
theorem C2_amended_no_item_validation :
    (∀ (d : Option RequestData) (u : Option DbUser) (logs : List LogEntry)
        (sb : SolverBehavior) (parse : String → Option SolverResponse)
        (elapsedMs now : Rat),
      ((optimizeProd d u logs sb parse elapsedMs now).http.status = 400 ↔
        missingShipOrCargo d)) ∧
    (∀ (ship : ShipData) (cargo : List CargoItem) (u : Option DbUser)
        (logs : List LogEntry) (sb : SolverBehavior)
        (parse : String → Option SolverResponse) (elapsedMs now : Rat),
      shipWriteExc ship = none →
      ((cargoWriteExc cargo = none →
        (optimizeProd (some ⟨some ship, some cargo⟩) u logs sb parse
          elapsedMs now).solverInvoked = true) ∧
      (∀ exc, cargoWriteExc cargo = some exc →
        (optimizeProd (some ⟨some ship, some cargo⟩) u logs sb parse
            elapsedMs now).http.status = 500 ∧
          (optimizeProd (some ⟨some ship, some cargo⟩) u logs sb parse
            elapsedMs now).solverInvoked = false ∧
          (optimizeProd (some ⟨some ship, some cargo⟩) u logs sb parse
            elapsedMs now).logs = logs))) := by
  constructor
  · intro d u logs sb parse elapsedMs now
    match d with
    | none => simp [optimizeProd, missingShipOrCargo]
    | some ⟨none, mc⟩ => simp [optimizeProd, missingShipOrCargo]
    | some ⟨some ship, none⟩ => simp [optimizeProd, missingShipOrCargo]
    | some ⟨some ship, some cargo⟩ =>
      simp only [optimizeProd, missingShipOrCargo]
      split <;> (try split) <;> (try split) <;> simp
  · intro ship cargo u logs sb parse elapsedMs now hs
    constructor
    · intro hc
      have hinv := (run_write_ok_cases ship cargo sb parse hs hc).2
      simp only [optimizeProd]
      split <;> (try split) <;> (try split) <;> simp_all
    · intro exc hc
      simp [optimizeProd, run_cargo_write_fail ship cargo sb parse exc hs hc]

/-- Witness for the amended C2 at the counterexample's request: both
keys present, so no 400, and the malformed-weight item still reaches the
solver. -/
theorem C2_amended_witness :
    ((optimizeProd (some ⟨some shipW, some [itemBadWeight]⟩) (some userW) []
        (.completes 0 "{}" "") parseOkW 5 100).http.status = 400 ↔
      missingShipOrCargo (some ⟨some shipW, some [itemBadWeight]⟩)) ∧
      (optimizeProd (some ⟨some shipW, some [itemBadWeight]⟩) (some userW) []
        (.completes 0 "{}" "") parseOkW 5 100).solverInvoked = true :=
  ⟨C2_amended_no_item_validation.1 (some ⟨some shipW, some [itemBadWeight]⟩)
      (some userW) [] (.completes 0 "{}" "") parseOkW 5 100,
    (C2_amended_no_item_validation.2 shipW [itemBadWeight] (some userW) []
      (.completes 0 "{}" "") parseOkW 5 100 (by decide)).1 (by decide)⟩

/-- C3 counterexample: a timed-out solver invocation in the production
dispatch (well-formed request, authenticated principal) surfaces as HTTP
500 — not 408 — and appends no UsageRecord at all, against the claimed
one record with `success=false`. -/
theorem C3_counterexample :
    (optimizeProd (some ⟨some shipW, some [itemW]⟩) (some userW) []
        .timesOut parseOkW 5 100).http.status = 500 ∧
      (optimizeProd (some ⟨some shipW, some [itemW]⟩) (some userW) []
        .timesOut parseOkW 5 100).http.status ≠ 408 ∧
      (optimizeProd (some ⟨some shipW, some [itemW]⟩) (some userW) []
        .timesOut parseOkW 5 100).logs = [] := by
  decide

/-- C3 amended: on a solver timeout the production handler's catch-all
maps `subprocess.TimeoutExpired` to HTTP 500 and appends no UsageRecord
(the ledger only ever records successes); the development handler
(app.py) is the one that surfaces 408, and it keeps no ledger at all.
In both, the subprocess was invoked and the workspace is cleaned. -/
theorem C3_amended_timeout_surfacing (ship : ShipData) (cargo : List CargoItem)
    (u : Option DbUser) (logs : List LogEntry)
    (parse : String → Option SolverResponse) (elapsedMs now : Rat)
    (hs : shipWriteExc ship = none) (hc : cargoWriteExc cargo = none) :
    (optimizeProd (some ⟨some ship, some cargo⟩) u logs .timesOut parse
        elapsedMs now).http.status = 500 ∧
      (optimizeProd (some ⟨some ship, some cargo⟩) u logs .timesOut parse
        elapsedMs now).logs = logs ∧
      (optimizeProd (some ⟨some ship, some cargo⟩) u logs .timesOut parse
        elapsedMs now).solverInvoked = true ∧
      (optimizeDev (some ⟨some ship, some cargo⟩) .timesOut parse).http.status = 408 ∧
      (optimizeDev (some ⟨some ship, some cargo⟩) .timesOut parse).solverInvoked =
        true := by
  have hrun := run_timeout ship cargo parse hs hc
  refine ⟨?_, ?_, ?_, ?_, ?_⟩ <;> simp [optimizeProd, optimizeDev, hrun]

/-- Witness for the amended C3 at a concrete timed-out dispatch. -/
theorem C3_amended_witness :
    (optimizeProd (some ⟨some shipW, some [itemW]⟩) (some userW) []
        .timesOut parseOkW 5 100).http.status = 500 ∧
      (optimizeProd (some ⟨some shipW, some [itemW]⟩) (some userW) []
        .timesOut parseOkW 5 100).logs = [] ∧
      (optimizeProd (some ⟨some shipW, some [itemW]⟩) (some userW) []
        .timesOut parseOkW 5 100).solverInvoked = true ∧
      (optimizeDev (some ⟨some shipW, some [itemW]⟩) .timesOut parseOkW).http.status =
        408 ∧
      (optimizeDev (some ⟨some shipW, some [itemW]⟩) .timesOut parseOkW).solverInvoked =
        true :=
  C3_amended_timeout_surfacing shipW [itemW] (some userW) [] parseOkW 5 100
    (by decide) (by decide)

/-- Witness for C5 at a concrete successful dispatch. -/
theorem C5_witness :
    (run_optimization shipW [itemW] (.completes 0 "{}" "") parseOkW).fs = FS.clean ∧
      (optimizeProd (some ⟨some shipW, some [itemW]⟩) (some userW) []
          (.completes 0 "{}" "") parseOkW 5 100).fs = FS.clean ∧
      (optimizeDev (some ⟨some shipW, some [itemW]⟩)
          (.completes 0 "{}" "") parseOkW).fs = FS.clean :=
  C5_workspace_cleanup shipW [itemW] (.completes 0 "{}" "") parseOkW
    (some userW) [] 5 100 (by decide) (by decide)

/-- Witness for the amended C8: events carrying the unknown customer
reference `cus_9` (and, for checkout, the unknown email `x@y.z`) leave
the concrete store untouched under all five handlers. -/
theorem C8_amended_witness :
    handle_checkout_completed ⟨some "x@y.z", some "cus_9", none, none⟩ c8db = c8db ∧
      handle_invoice_paid ⟨some "cus_9", none⟩ c8db = c8db ∧
      handle_invoice_failed ⟨some "cus_9", none⟩ c8db = c8db ∧
      handle_subscription_updated ⟨some "cus_9", none, none, false⟩ c8db = c8db ∧
      handle_subscription_deleted ⟨some "cus_9"⟩ c8db = c8db :=
  ⟨(C8_amended_lookup_and_drop c8db).1 _ (by decide),
   (C8_amended_lookup_and_drop c8db).2.1 _ (by decide),
   (C8_amended_lookup_and_drop c8db).2.2.1 _ (by decide),
   (C8_amended_lookup_and_drop c8db).2.2.2.1 _ (by decide),
   (C8_amended_lookup_and_drop c8db).2.2.2.2 _ (by decide)⟩
